import Mathlib

/-!
Verification of the scoring / ranking pipeline of `src/app.py`
(a single-file central-bank "hawkish/dovish" dashboard).

Modelling conventions.

* A pandas float `Series` is modelled by its ordered list of values.
  Timestamps never influence the computations under scrutiny (only order
  does), so they are dropped.
* The analytic claims about `calculate_z_score` are stated over `List ℝ`
  (NaN-free series, the case produced by the pipeline after forward-fill
  and `dropna`).  The missing-data behaviour of the very same Python
  function is modelled separately over `List (Option ℝ)` where `none`
  plays the role of NaN, with pandas `skipna` semantics for `mean`/`std`
  and IEEE propagation for `-` and `/` (`calculate_z_score_nan`).
* `Series.std()` is the sample standard deviation (`ddof = 1`), i.e.
  `Real.sqrt` of the sum of squared deviations divided by `n - 1`.
* The downstream pipeline (scoring loop, sentinel rows, sorting,
  `df_clean` filtering, pair generation) only consumes z-scores; it never
  needs the square root itself.  It is therefore modelled over `ℚ`
  (binary floats are rationals) and is parametric in the function
  `std : List ℚ → ℚ` used inside the z-score, which keeps every pipeline
  definition executable.  All pipeline theorems hold for every `std`.
* `pandas.DataFrame.sort_values(by=..., ascending=False)` reverses the
  input, takes a stable ascending argsort and reverses again, which is a
  stable descending sort whenever the underlying argsort is stable; for
  arrays of fewer than 16 elements the numpy default sort is an insertion
  sort, which is stable.  This app sorts at most 7 score rows and the
  handful of trade ideas they generate stays far below 16 as displayed,
  so the sort is modelled as a stable descending insertion sort.
* Python `round(x, 2)` is modelled as rounding `100 x` to the nearest
  integer (`round2`).  Python rounds exact half-cents to even and works
  on binary floats; no input used in any theorem below sits on a
  half-cent boundary, so the difference is immaterial here.
* `pd.DataFrame(trade_ideas).sort_values(by=...)` at line 274 raises
  `KeyError` when `trade_ideas` is empty, because the empty frame has no
  columns.  That error path is reachable (no pair above the threshold),
  so `df_trades` returns an `Option`: `none` is the raise.  The
  dataframe built at line 162 is in the same danger only when the
  configuration is empty; `central_banks` is a hard-coded 7-entry map
  and every entity appends a row (the failure branch included), so that
  path is unreachable in this program and `get_macro_data` stays total.
* The `Date MAJ` column holds a wall-clock string, is touched by no
  claim, and is omitted from the model.
* `st.*` calls (progress bar, tables, charts) are presentation-layer
  effects with no influence on the computed data and are not modelled.
-/

/-! ### The z-score function of `src/app.py`, lines 164-170, over NaN-free series -/

/-- Sample mean of a NaN-free series: pandas `Series.mean()`. -/
noncomputable def smean (l : List ℝ) : ℝ := l.sum / l.length

/-- Sample variance with `ddof = 1` (divide by `N - 1`): the square of pandas
`Series.std()`. -/
noncomputable def svar (l : List ℝ) : ℝ := ((l.map fun x => (x - smean l) ^ 2).sum) / (l.length - 1)

/-- Sample standard deviation (pandas `Series.std()`, `ddof = 1`). -/
noncomputable def sstd (l : List ℝ) : ℝ := Real.sqrt (svar l)

/-- Embedding of `calculate_z_score` (`src/app.py` lines 164-170) for a series
without missing values:

    if len(series) < 12: return 0
    mean = series.mean()
    std = series.std()
    if std == 0: return 0
    return (series.iloc[-1] - mean) / std
-/
noncomputable def calculate_z_score (series : List ℝ) : ℝ :=
  if series.length < 12 then 0
  else if sstd series = 0 then 0
  else (series.getLast! - smean series) / sstd series

/-! ### The same function over series with missing values (`none` = NaN) -/

/-- Non-missing values of a series, in order. -/
def valids (s : List (Option ℝ)) : List ℝ := s.filterMap id

/-- Pandas `Series.mean()` with `skipna`: NaN (`none`) when every value is
missing. -/
noncomputable def nmean (s : List (Option ℝ)) : Option ℝ :=
  if (valids s).isEmpty then none else some (smean (valids s))

/-- Pandas `Series.std()` with `skipna` and `ddof = 1`: NaN (`none`) when fewer
than two values are present. -/
noncomputable def nstd (s : List (Option ℝ)) : Option ℝ :=
  if (valids s).length < 2 then none else some (sstd (valids s))

/-- IEEE subtraction: NaN absorbs. -/
noncomputable def osub : Option ℝ → Option ℝ → Option ℝ
  | some a, some b => some (a - b)
  | _, _ => none

/-- IEEE division as used on the taken branch: NaN absorbs.  (The code path
never divides by an actual zero: the `std == 0` test has already returned.) -/
noncomputable def odiv : Option ℝ → Option ℝ → Option ℝ
  | some a, some b => some (a / b)
  | _, _ => none

/-- Embedding of `calculate_z_score` (`src/app.py` lines 164-170) with missing
values propagated the way pandas / IEEE arithmetic does: `len(series)` counts
missing entries, `mean`/`std` skip them, `NaN == 0` is false, and NaN flows
through `-` and `/`. -/
noncomputable def calculate_z_score_nan (series : List (Option ℝ)) : Option ℝ :=
  if series.length < 12 then some 0
  else if nstd series = some 0 then some 0
  else odiv (osub series.getLast! (nmean series)) (nstd series)

/-! ### The scoring pipeline of `get_macro_data` (`src/app.py` lines 70-162), over ℚ -/

/-- Python `round(x, 2)`: divide the nearest integer to `100 x` by `100`. -/
def round2 (x : ℚ) : ℚ := (round (x * 100) : ℚ) / 100

/-- Embedding of `series.pct_change(n).dropna() * 100` for a NaN-free series:
entry `t` of the result is `(raw[t+n] - raw[t]) / raw[t] * 100`, and the `n`
leading undefined entries are dropped. -/
def pctChange (n : ℕ) (l : List ℚ) : List ℚ :=
  (List.range (l.length - n)).map fun i => (l.getD (i + n) 0 - l.getD i 0) / l.getD i 0 * 100

/-- The z-score computation as consumed by the pipeline, parametric in the
standard-deviation function `std` (see the header: `ℚ` has no square root, and
no pipeline claim depends on the numeric value of `std`). Structure mirrors
`calculate_z_score` (`src/app.py` lines 164-170). -/
def calculate_z_score_q (std : List ℚ → ℚ) (series : List ℚ) : ℚ :=
  if series.length < 12 then 0
  else if std series = 0 then 0
  else (series.getLast! - series.sum / series.length) / std series

/-- The composite score formula of `src/app.py` line 131:
`score = (z_rate * 2.0) + (z_cpi * 1.0) - (z_bs * 0.5)`. -/
def macroScore (z_rate z_cpi z_bs : ℚ) : ℚ := z_rate * 2.0 + z_cpi * 1.0 - z_bs * 0.5

/-- One fetched data set for one entity.  `none` for `rate`/`cpi` means the
`fred.get_series` call raised; `none` for `balance` means the balance fetch
raised inside its inner `try`.  A successful fetch yields the forward-filled
series (forward fill is the identity on the NaN-free series modelled here). -/
structure FetchResult where
  rate : Option (List ℚ)
  cpi : Option (List ℚ)
  balance : Option (List ℚ)

/-- One row of the dashboard dataframe (`src/app.py` lines 133-143; the
`Date MAJ` column is omitted, see header). -/
structure ScoreRow where
  devise : String
  taux : ℚ
  zRate : ℚ
  cpi : ℚ
  zCpi : ℚ
  bilan : ℚ
  zBilan : ℚ
  macroScore : ℚ
deriving DecidableEq

/-- The failure row appended by the `except` branch (`src/app.py` lines
149-156): zeros everywhere and the sentinel score `-999`. -/
def errorRow (currency : String) : ScoreRow :=
  { devise := currency ++ " (Donnée manquante)", taux := 0, zRate := 0, cpi := 0, zCpi := 0,
    bilan := 0, zBilan := 0, macroScore := -999 }

/-- The CPI block (`src/app.py` lines 98-109): year-over-year percent change
with lag 12, defaulting to `(0, 0)` when the derived series is empty. -/
def cpiPart (std : List ℚ → ℚ) (cpi_s : List ℚ) : ℚ × ℚ :=
  let cpi_yoy := pctChange 12 cpi_s
  if cpi_yoy = [] then (0, 0) else (cpi_yoy.getLast!, calculate_z_score_q std cpi_yoy)

/-- The balance-sheet block (`src/app.py` lines 111-127): skipped entirely when
no balance series id is configured, `(0, 0)` when the fetch raised or the
lag-26 percent change is empty. -/
def bsPart (std : List ℚ → ℚ) (hasBalance : Bool) (balance : Option (List ℚ)) : ℚ × ℚ :=
  if hasBalance then
    match balance with
    | none => (0, 0)
    | some bs_s =>
      let bs_chg := pctChange 26 bs_s
      if bs_chg = [] then (0, 0) else (bs_chg.getLast!, calculate_z_score_q std bs_chg)
  else (0, 0)

/-- One iteration of the entity loop of `get_macro_data` (`src/app.py` lines
84-156).  A failed or empty rate fetch, or a failed CPI fetch, lands in the
`except` branch and produces `errorRow`; otherwise the row is built with every
numeric field passed through `round(-, 2)`. -/
def processEntity (std : List ℚ → ℚ) (currency : String) (hasBalance : Bool)
    (fr : FetchResult) : ScoreRow :=
  match fr.rate with
  | none => errorRow currency
  | some rate_s =>
    if rate_s = [] then errorRow currency
    else
      match fr.cpi with
      | none => errorRow currency
      | some cpi_s =>
        { devise := currency,
          taux := round2 rate_s.getLast!,
          zRate := round2 (calculate_z_score_q std rate_s),
          cpi := round2 (cpiPart std cpi_s).1,
          zCpi := round2 (cpiPart std cpi_s).2,
          bilan := round2 (bsPart std hasBalance fr.balance).1,
          zBilan := round2 (bsPart std hasBalance fr.balance).2,
          macroScore := round2 (macroScore (calculate_z_score_q std rate_s)
            (cpiPart std cpi_s).2 (bsPart std hasBalance fr.balance).2) }

/-- The configured entities (`central_banks`, `src/app.py` lines 30-66): name
and whether a balance-sheet series id is present (`GBP` and `AUD` have none). -/
def central_banks : List (String × Bool) :=
  [("USD (Fed)", true), ("EUR (ECB)", true), ("JPY (BoJ)", true), ("GBP (BoE)", false),
   ("CAD (BoC)", true), ("AUD (RBA)", false), ("CHF (SNB)", true)]

/-- The `data` list accumulated by the entity loop, in configuration order. -/
def buildRows (std : List ℚ → ℚ) (banks : List (String × Bool))
    (fetch : String → FetchResult) : List ScoreRow :=
  banks.map fun nb => processEntity std nb.1 nb.2 (fetch nb.1)

/-- Descending order on the `Macro Score` column. -/
def scoreGE (a b : ScoreRow) : Prop := b.macroScore ≤ a.macroScore

instance : DecidableRel scoreGE := fun a b => inferInstanceAs (Decidable (b.macroScore ≤ a.macroScore))

instance : IsTotal ScoreRow scoreGE := ⟨fun a b => le_total b.macroScore a.macroScore⟩

instance : IsTrans ScoreRow scoreGE := ⟨fun _ _ _ h1 h2 => le_trans h2 h1⟩

/-- Stable descending sort by `Macro Score`: the model of
`sort_values` on the Macro Score column, descending (`src/app.py` line 162; see
the header note on pandas sort stability). -/
def sortRows (rows : List ScoreRow) : List ScoreRow := rows.insertionSort scoreGE

/-- Embedding of `get_macro_data` (`src/app.py` lines 70-162): build one row
per configured entity, then sort by `Macro Score` descending. -/
def get_macro_data (std : List ℚ → ℚ) (banks : List (String × Bool))
    (fetch : String → FetchResult) : List ScoreRow :=
  sortRows (buildRows std banks fetch)

/-- The post-fetch filter keeping the rows whose Macro Score is not `-999`
(`src/app.py` line
181). -/
def df_clean (rows : List ScoreRow) : List ScoreRow :=
  rows.filter fun r => decide (r.macroScore ≠ -999)

/-- Top-ranked entity: `df_clean.iloc[0]` (`src/app.py` line 205), guarded by
`if not df_clean.empty`. -/
def bestRow (rows : List ScoreRow) : Option ScoreRow := (df_clean rows).head?

/-- Bottom-ranked entity: `df_clean.iloc[-1]` (`src/app.py` line 206). -/
def worstRow (rows : List ScoreRow) : Option ScoreRow := (df_clean rows).getLast?

/-- One entry of the `trade_ideas` list (`src/app.py` lines 267-272). -/
structure TradeIdea where
  paire : String
  action : String
  scoreSpread : ℚ
  logique : String
deriving DecidableEq

/-- The rationale string (`src/app.py` lines 260-265). -/
def reason (row_long row_short : ScoreRow) : String :=
  if 1.0 < row_long.zRate ∧ row_short.zRate < 0 then "Différentiel de Taux (Carry Trade)"
  else if 1.5 < row_long.zCpi ∧ row_short.zCpi < 0.5 then "Réaction à l\x27Inflation"
  else "Divergence Politique Globale"

/-- The dictionary appended for one qualifying ordered pair (`src/app.py` lines
258-272): first three characters of each name, the spread rounded to two
decimals, and the rationale. -/
def mkIdea (row_long row_short : ScoreRow) : TradeIdea :=
  { paire := row_long.devise.take 3 ++ "/" ++ row_short.devise.take 3,
    action := "ACHAT",
    scoreSpread := round2 (row_long.macroScore - row_short.macroScore),
    logique := reason row_long row_short }

/-- The pair-generation double loop (`src/app.py` lines 249-272): every ordered
pair of rows with distinct `Devise`, kept exactly when the score spread
strictly exceeds `1.5`. -/
def trade_ideas (rows : List ScoreRow) : List TradeIdea :=
  rows.flatMap fun row_long =>
    rows.filterMap fun row_short =>
      if row_long.devise ≠ row_short.devise then
        if 1.5 < row_long.macroScore - row_short.macroScore then
          some (mkIdea row_long row_short)
        else none
      else none

/-- Descending order on the `Score Spread` column. -/
def spreadGE (a b : TradeIdea) : Prop := b.scoreSpread ≤ a.scoreSpread

instance : DecidableRel spreadGE := fun a b => inferInstanceAs (Decidable (b.scoreSpread ≤ a.scoreSpread))

instance : IsTotal TradeIdea spreadGE := ⟨fun a b => le_total b.scoreSpread a.scoreSpread⟩

instance : IsTrans TradeIdea spreadGE := ⟨fun _ _ _ h1 h2 => le_trans h2 h1⟩

/-- Embedding of `df_trades` (`src/app.py` line 274): build a dataframe from
the idea list and sort it descending by `Score Spread`.  This line is fallible:
when `trade_ideas` is empty, `pd.DataFrame([])` is a frame with no columns and
`sort_values` on the Score Spread column raises `KeyError`.  `none` models that
raise; `some` carries the sorted table. -/
def df_trades (rows : List ScoreRow) : Option (List TradeIdea) :=
  if trade_ideas rows = [] then none
  else some ((trade_ideas rows).insertionSort spreadGE)

/-- The displayed trade table `st.table(df_trades.head(7))` (`src/app.py` line
277), reached only when line 274 did not raise. -/
def displayed_trades (rows : List ScoreRow) : Option (List TradeIdea) :=
  (df_trades rows).map fun l => l.take 7

/-- The whole trade-idea path of the app: fetch, score, sort, filter the
sentinel rows out, enumerate pairs, then the fallible dataframe sort of line
274 (`none` = the run dies with `KeyError`). -/
def appTradeTable (std : List ℚ → ℚ) (banks : List (String × Bool))
    (fetch : String → FetchResult) : Option (List TradeIdea) :=
  df_trades (df_clean (get_macro_data std banks fetch))

/-- Concrete score row with a given name and Macro Score, zero elsewhere:
used to state claims at explicit inputs. -/
def mkRow (nm : String) (sc : ℚ) : ScoreRow :=
  { devise := nm, taux := 0, zRate := 0, cpi := 0, zCpi := 0, bilan := 0, zBilan := 0,
    macroScore := sc }

/-! ### Claims about the z-score function (C1, C5) -/

/-- C1: for every series with at least 12 observations and nonzero sample
standard deviation, the z-score equals `(last_value - sample_mean) /
sample_std_dev`, where the standard deviation is the sample one (`svar`
divides by `N - 1`). -/
theorem c1_zscore_formula (series : List ℝ) (hlen : 12 ≤ series.length)
    (hstd : sstd series ≠ 0) :
    calculate_z_score series = (series.getLast! - smean series) / sstd series := by
  unfold calculate_z_score
  rw [if_neg (by omega), if_neg hstd]

/-- Witness for C1 at a concrete 12-observation series with sample variance 1
(so `sstd = 1`): the z-score is the standardized last value. -/
theorem c1_zscore_formula_witness :
    12 ≤ ([1, -1, -3/2, -3/2, 0, 0, 0, 0, 0, 0, 3/2, 3/2] : List ℝ).length ∧
    sstd ([1, -1, -3/2, -3/2, 0, 0, 0, 0, 0, 0, 3/2, 3/2] : List ℝ) ≠ 0 ∧
    calculate_z_score ([1, -1, -3/2, -3/2, 0, 0, 0, 0, 0, 0, 3/2, 3/2] : List ℝ)
      = (([1, -1, -3/2, -3/2, 0, 0, 0, 0, 0, 0, 3/2, 3/2] : List ℝ).getLast!
          - smean ([1, -1, -3/2, -3/2, 0, 0, 0, 0, 0, 0, 3/2, 3/2] : List ℝ))
        / sstd ([1, -1, -3/2, -3/2, 0, 0, 0, 0, 0, 0, 3/2, 3/2] : List ℝ) := by
  have hv : svar ([1, -1, -3/2, -3/2, 0, 0, 0, 0, 0, 0, 3/2, 3/2] : List ℝ) = 1 := by
    norm_num [svar, smean, List.sum_cons, List.sum_nil, List.map_cons, List.map_nil]
  have hs : sstd ([1, -1, -3/2, -3/2, 0, 0, 0, 0, 0, 0, 3/2, 3/2] : List ℝ) ≠ 0 := by
    rw [sstd, hv, Real.sqrt_one]; norm_num
  exact ⟨by norm_num, hs, c1_zscore_formula _ (by norm_num) hs⟩

/-- C2: the composite Macro Score is `2.0 * z_rate + 1.0 * z_cpi - 0.5 * z_bs`
(the balance term negated), and it is linear in the balance z-score: moving
only that input by `d` moves the composite by exactly `-0.5 * d`. -/
theorem c2_macro_score_linear :
    (∀ z_rate z_cpi z_bs : ℚ,
      macroScore z_rate z_cpi z_bs = 2.0 * z_rate + 1.0 * z_cpi - 0.5 * z_bs) ∧
    (∀ z_rate z_cpi z_bs d : ℚ,
      macroScore z_rate z_cpi (z_bs + d) - macroScore z_rate z_cpi z_bs = -(0.5 * d)) := by
  constructor <;> intros <;> (unfold macroScore; ring)

/-- C5 (amended): a series below the 12-observation threshold, or with sample
standard deviation exactly zero, yields z-score 0.0 (and the function is total:
no exception).  An all-missing series, however, falls under the 0.0 policy only
when it is below the threshold: with 12 or more (all missing) entries the
result is NaN, not 0.0. -/
theorem c5_zscore_fail_soft :
    (∀ series : List (Option ℝ), series.length < 12 →
      calculate_z_score_nan series = some 0) ∧
    (∀ series : List (Option ℝ), nstd series = some 0 →
      calculate_z_score_nan series = some 0) ∧
    (∀ series : List (Option ℝ), (∀ x ∈ series, x = none) → 12 ≤ series.length →
      calculate_z_score_nan series = none) := by
  refine ⟨fun s h => by simp [calculate_z_score_nan, h], fun s h => ?_, fun s hall hlen => ?_⟩
  · unfold calculate_z_score_nan
    by_cases hl : s.length < 12
    · rw [if_pos hl]
    · rw [if_neg hl, if_pos h]
  · have hv : valids s = [] := by
      rw [valids, List.filterMap_eq_nil_iff]
      intro a ha
      simp [hall a ha]
    have hn : nstd s = none := by simp [nstd, hv]
    unfold calculate_z_score_nan
    rw [if_neg (by omega), if_neg (by simp [hn]), hn]
    cases osub s.getLast! (nmean s) <;> simp [odiv]

/-- Witness for C5 at concrete inputs: the empty series (below threshold), a
constant 12-observation series (standard deviation exactly zero), and a
12-entry all-missing series (NaN case of the amendment). -/
theorem c5_zscore_fail_soft_witness :
    calculate_z_score_nan [] = some 0 ∧
    nstd [some 5, some 5, some 5, some 5, some 5, some 5,
          some 5, some 5, some 5, some 5, some 5, some (5:ℝ)] = some 0 ∧
    calculate_z_score_nan [some 5, some 5, some 5, some 5, some 5, some 5,
          some 5, some 5, some 5, some 5, some 5, some (5:ℝ)] = some 0 ∧
    calculate_z_score_nan (([none, none, none, none, none, none, none, none, none, none, none, none] : List (Option ℝ))) = none := by
  have hval : valids [some 5, some 5, some 5, some 5, some 5, some 5,
      some 5, some 5, some 5, some 5, some 5, some (5:ℝ)]
      = [5, 5, 5, 5, 5, 5, 5, 5, 5, 5, 5, 5] := by
    simp [valids]
  have hvar : svar ([5, 5, 5, 5, 5, 5, 5, 5, 5, 5, 5, 5] : List ℝ) = 0 := by
    norm_num [svar, smean, List.sum_cons, List.sum_nil, List.map_cons, List.map_nil]
  have hstd : nstd [some 5, some 5, some 5, some 5, some 5, some 5,
      some 5, some 5, some 5, some 5, some 5, some (5:ℝ)] = some 0 := by
    rw [nstd, hval]
    simp [sstd, hvar, Real.sqrt_zero]
  refine ⟨c5_zscore_fail_soft.1 [] (by norm_num), hstd,
    c5_zscore_fail_soft.2.1 _ hstd, c5_zscore_fail_soft.2.2 _ ?_ (by simp)⟩
  simp

/-- Counterexample to C5 as stated: an all-missing series of 12 entries is not
below the threshold, pandas `mean()`/`std()` of it are NaN, `NaN == 0` is
false, and the returned value is NaN rather than 0.0. -/
theorem c5_all_missing_counterexample :
    calculate_z_score_nan (([none, none, none, none, none, none, none, none, none, none, none, none] : List (Option ℝ))) ≠ some 0 := by
  have hv : valids (([none, none, none, none, none, none, none, none, none, none, none, none] : List (Option ℝ))) = [] := by
    rw [valids, List.filterMap_eq_nil_iff]
    simp
  have hn : nstd (([none, none, none, none, none, none, none, none, none, none, none, none] : List (Option ℝ))) = none := by
    rw [nstd, hv]
    simp
  unfold calculate_z_score_nan
  rw [if_neg (by simp), if_neg (by simp [hn]), hn]
  cases osub (([none, none, none, none, none, none, none, none, none, none, none, none] : List (Option ℝ))).getLast!
      (nmean (([none, none, none, none, none, none, none, none, none, none, none, none] : List (Option ℝ)))) <;> simp [odiv]

/-! ### Claim C7: the derived percent-change series -/

/-- C7 (amended): the derived series satisfies
`derived[t] = (raw[t] - raw[t-N]) / raw[t-N] * 100` with the `N` undefined
leading entries dropped (stated here with `t` indexing the derived series, so
`raw` is read at `t + N` and `t`); `[100, 110, 121]` with lag 1 derives to
`[10, 10]`; the pipeline derives inflation with lag 12 and the balance-sheet
change with lag 26 unconditionally (the lag-6 fallback for short series exists
in other revisions but not in this code). -/
theorem c7_pct_change_spec :
    (∀ (l : List ℚ) (n t : ℕ), t + n < l.length →
      (pctChange n l).length = l.length - n ∧
      (pctChange n l).getD t 0 = (l.getD (t + n) 0 - l.getD t 0) / l.getD t 0 * 100) ∧
    pctChange 1 [100, 110, 121] = [10, 10] ∧
    (∀ std cpi_s, cpiPart std cpi_s
        = if pctChange 12 cpi_s = [] then (0, 0)
          else ((pctChange 12 cpi_s).getLast!, calculate_z_score_q std (pctChange 12 cpi_s))) ∧
    (∀ std bal_s, bsPart std true (some bal_s)
        = if pctChange 26 bal_s = [] then (0, 0)
          else ((pctChange 26 bal_s).getLast!, calculate_z_score_q std (pctChange 26 bal_s))) := by
  refine ⟨fun l n t ht => ⟨by simp [pctChange], ?_⟩, ?_, fun std cpi_s => rfl,
    fun std bal_s => rfl⟩
  · have ht' : t < l.length - n := by omega
    simp [pctChange, List.getD_eq_getElem?_getD, List.getElem?_map, List.getElem?_range, ht']
  · simp [pctChange, List.range_succ]
    norm_num

/-- Witness for C7 at the spec example: lag 1 over `[100, 110, 121]`, derived
entry 0. -/
theorem c7_pct_change_spec_witness :
    (0 + 1 < ([100, 110, 121] : List ℚ).length) ∧
    (pctChange 1 [100, 110, 121]).length = ([100, 110, 121] : List ℚ).length - 1 ∧
    (pctChange 1 [100, 110, 121]).getD 0 0
      = (([100, 110, 121] : List ℚ).getD (0 + 1) 0 - ([100, 110, 121] : List ℚ).getD 0 0)
        / ([100, 110, 121] : List ℚ).getD 0 0 * 100 := by
  have h : (0 + 1 : ℕ) < ([100, 110, 121] : List ℚ).length := by norm_num
  exact ⟨h, (c7_pct_change_spec.1 _ 1 0 h).1, (c7_pct_change_spec.1 _ 1 0 h).2⟩

/-- Counterexample to C7 as stated: for a short balance-sheet series (7
observations) the code still uses lag 26, so the derived series is empty and
the balance block falls back to `(0, 0)` — it does not switch to lag 6, which
would derive a nonempty series here. -/
theorem c7_no_lag6_counterexample :
    pctChange 26 ([1, 2, 4, 8, 16, 32, 64] : List ℚ) = [] ∧
    bsPart (fun _ => 1) true (some ([1, 2, 4, 8, 16, 32, 64] : List ℚ)) = (0, 0) ∧
    pctChange 6 ([1, 2, 4, 8, 16, 32, 64] : List ℚ) = [6300] := by
  refine ⟨rfl, by simp [bsPart, pctChange], ?_⟩
  simp [pctChange, List.range_succ]
  norm_num

/-! ### Claims C3, C4, C6 about the ranker and the pair generator -/

/-- Membership in the pair-generation output: exactly the ordered pairs of rows
with distinct names whose score spread strictly exceeds 1.5. -/
lemma mem_trade_ideas_iff (rows : List ScoreRow) (p : TradeIdea) :
    p ∈ trade_ideas rows ↔ ∃ a b, a ∈ rows ∧ b ∈ rows ∧ a.devise ≠ b.devise ∧
      1.5 < a.macroScore - b.macroScore ∧ p = mkIdea a b := by
  simp only [trade_ideas, List.mem_flatMap, List.mem_filterMap]
  constructor
  · rintro ⟨a, ha, b, hb, hsome⟩
    by_cases h1 : a.devise ≠ b.devise
    · rw [if_pos h1] at hsome
      by_cases h2 : (1.5:ℚ) < a.macroScore - b.macroScore
      · rw [if_pos h2] at hsome
        exact ⟨a, b, ha, hb, h1, h2, (Option.some_inj.mp hsome).symm⟩
      · rw [if_neg h2] at hsome
        exact absurd hsome (by simp)
    · rw [if_neg h1] at hsome
      exact absurd hsome (by simp)
  · rintro ⟨a, b, ha, hb, h1, h2, rfl⟩
    exact ⟨a, ha, b, hb, by rw [if_pos h1, if_pos h2]⟩

/-- C3: the divergence set is built from every ordered pair of rows with
distinct names, kept iff the spread is strictly above 1.5 (so a spread of
exactly 1.5 is dropped); whenever any pair is retained the line-274 sort
succeeds, and whatever table it produces is the idea list sorted descending by
spread, with the display capped at its top 7.  (When nothing is retained the
sort raises instead — that reachable error path is claim C6.) -/
theorem c3_trade_pairs (rows : List ScoreRow) :
    (∀ p, p ∈ trade_ideas rows ↔ ∃ a b, a ∈ rows ∧ b ∈ rows ∧ a.devise ≠ b.devise ∧
      1.5 < a.macroScore - b.macroScore ∧ p = mkIdea a b) ∧
    (∀ l, df_trades rows = some l →
      l.Pairwise spreadGE ∧ l.Perm (trade_ideas rows) ∧
        displayed_trades rows = some (l.take 7)) ∧
    (trade_ideas rows ≠ [] →
      df_trades rows = some ((trade_ideas rows).insertionSort spreadGE)) ∧
    trade_ideas [mkRow "AAA" 2, mkRow "BBB" 0.5] = [] := by
  refine ⟨fun p => mem_trade_ideas_iff rows p, fun l hl => ?_, fun h => ?_, ?_⟩
  · unfold df_trades at hl
    split_ifs at hl with h
    obtain rfl : l = (trade_ideas rows).insertionSort spreadGE :=
      (Option.some_inj.mp hl).symm
    refine ⟨List.sorted_insertionSort spreadGE _, List.perm_insertionSort spreadGE _, ?_⟩
    simp [displayed_trades, df_trades, h]
  · unfold df_trades
    rw [if_neg h]
  · norm_num [trade_ideas, mkRow, List.flatMap, List.filterMap]

/-- Witness for C3 at the spec section-8 example scores `{A: 5.0, B: 1.0,
C: 4.9}` with this revision threshold 1.5: exactly the ordered pairs (A, B)
(spread 4) and (C, B) (spread 3.9) are retained, the sort succeeds and keeps
them in descending spread order, and the display is their top 7. -/
theorem c3_trade_pairs_witness :
    trade_ideas [mkRow "AAA" 5, mkRow "BBB" 1, mkRow "CCC" 4.9]
      = [mkIdea (mkRow "AAA" 5) (mkRow "BBB" 1),
         mkIdea (mkRow "CCC" 4.9) (mkRow "BBB" 1)] ∧
    df_trades [mkRow "AAA" 5, mkRow "BBB" 1, mkRow "CCC" 4.9]
      = some ((trade_ideas [mkRow "AAA" 5, mkRow "BBB" 1, mkRow "CCC" 4.9]).insertionSort
          spreadGE) ∧
    df_trades [mkRow "AAA" 5, mkRow "BBB" 1, mkRow "CCC" 4.9]
      = some [mkIdea (mkRow "AAA" 5) (mkRow "BBB" 1),
              mkIdea (mkRow "CCC" 4.9) (mkRow "BBB" 1)] ∧
    [mkIdea (mkRow "AAA" 5) (mkRow "BBB" 1),
     mkIdea (mkRow "CCC" 4.9) (mkRow "BBB" 1)].Pairwise spreadGE ∧
    [mkIdea (mkRow "AAA" 5) (mkRow "BBB" 1),
     mkIdea (mkRow "CCC" 4.9) (mkRow "BBB" 1)].Perm
      (trade_ideas [mkRow "AAA" 5, mkRow "BBB" 1, mkRow "CCC" 4.9]) ∧
    displayed_trades [mkRow "AAA" 5, mkRow "BBB" 1, mkRow "CCC" 4.9]
      = some ([mkIdea (mkRow "AAA" 5) (mkRow "BBB" 1),
               mkIdea (mkRow "CCC" 4.9) (mkRow "BBB" 1)].take 7) := by
  have hideas : trade_ideas [mkRow "AAA" 5, mkRow "BBB" 1, mkRow "CCC" 4.9]
      = [mkIdea (mkRow "AAA" 5) (mkRow "BBB" 1),
         mkIdea (mkRow "CCC" 4.9) (mkRow "BBB" 1)] := by
    norm_num [trade_ideas, mkRow, List.flatMap, List.filterMap]
    simp
  have hne : trade_ideas [mkRow "AAA" 5, mkRow "BBB" 1, mkRow "CCC" 4.9] ≠ [] := by
    rw [hideas]
    simp
  have hdf := (c3_trade_pairs [mkRow "AAA" 5, mkRow "BBB" 1, mkRow "CCC" 4.9]).2.2.1 hne
  have hsorted : df_trades [mkRow "AAA" 5, mkRow "BBB" 1, mkRow "CCC" 4.9]
      = some [mkIdea (mkRow "AAA" 5) (mkRow "BBB" 1),
              mkIdea (mkRow "CCC" 4.9) (mkRow "BBB" 1)] := by
    rw [hdf, hideas]
    norm_num [List.insertionSort, List.orderedInsert, spreadGE, mkIdea, mkRow, round2, round_eq]
  obtain ⟨h1, h2, h3⟩ := (c3_trade_pairs [mkRow "AAA" 5, mkRow "BBB" 1, mkRow "CCC" 4.9]).2.1
    _ hsorted
  exact ⟨hideas, hdf, hsorted, h1, h2, h3⟩

/-- Stability of the descending sort: the rows at any fixed score keep their
original relative order. -/
lemma filter_score_sortRows (rows : List ScoreRow) (c : ℚ) :
    (sortRows rows).filter (fun r => decide (r.macroScore = c))
      = rows.filter (fun r => decide (r.macroScore = c)) := by
  have hsub : (rows.filter fun r => decide (r.macroScore = c)).Sublist (sortRows rows) := by
    apply List.sublist_insertionSort _ (List.filter_sublist rows)
    apply List.pairwise_of_forall_mem_list
    intro a ha b hb
    have ha' : a.macroScore = c := by simpa using (List.mem_filter.mp ha).2
    have hb' : b.macroScore = c := by simpa using (List.mem_filter.mp hb).2
    unfold scoreGE
    rw [ha', hb']
  have h1 : (rows.filter fun r => decide (r.macroScore = c)).Sublist
      ((sortRows rows).filter fun r => decide (r.macroScore = c)) := by
    have h2 := hsub.filter (fun r => decide (r.macroScore = c))
    rwa [List.filter_eq_self.mpr (fun a ha => (List.mem_filter.mp ha).2)] at h2
  have hlen : ((sortRows rows).filter (fun r => decide (r.macroScore = c))).length
      = (rows.filter (fun r => decide (r.macroScore = c))).length :=
    ((List.perm_insertionSort scoreGE rows).filter _).length_eq
  exact (h1.eq_of_length hlen.symm).symm

/-- C4: the ranking is a stable descending sort of the rows by Macro Score:
a permutation, sorted descending, rows of equal score in insertion order (in
particular `[3.0 A, 3.0 B, 1.0 C]` ranks as `[A, B, C]`), and the top
hawk/top dove displayed are the first/last row of the (cleaned) sorted
output. -/
theorem c4_ranking_stable_sort (rows : List ScoreRow) :
    (sortRows rows).Perm rows ∧
    (sortRows rows).Pairwise scoreGE ∧
    (∀ c : ℚ, (sortRows rows).filter (fun r => decide (r.macroScore = c))
        = rows.filter (fun r => decide (r.macroScore = c))) ∧
    sortRows [mkRow "A" 3, mkRow "B" 3, mkRow "C" 1]
      = [mkRow "A" 3, mkRow "B" 3, mkRow "C" 1] ∧
    (∀ std banks fetch, get_macro_data std banks fetch = sortRows (buildRows std banks fetch)) ∧
    (∀ l, bestRow l = (df_clean l).head?) ∧
    (∀ l, worstRow l = (df_clean l).getLast?) := by
  refine ⟨List.perm_insertionSort scoreGE rows, List.sorted_insertionSort scoreGE rows,
    fun c => filter_score_sortRows rows c, ?_, fun _ _ _ => rfl, fun _ => rfl, fun _ => rfl⟩
  norm_num [sortRows, List.insertionSort, List.orderedInsert, scoreGE, mkRow]

/-- Empty pair output whenever no ordered pair clears the threshold. -/
lemma trade_ideas_eq_nil (rows : List ScoreRow)
    (h : ∀ a ∈ rows, ∀ b ∈ rows, a.devise ≠ b.devise → a.macroScore - b.macroScore ≤ 1.5) :
    trade_ideas rows = [] := by
  rw [List.eq_nil_iff_forall_not_mem]
  intro p hp
  rcases (mem_trade_ideas_iff rows p).mp hp with ⟨a, b, ha, hb, hne, hgt, rfl⟩
  exact absurd hgt (not_lt.mpr (h a ha b hb hne))

/-- Failed (or empty) rate fetch: the `except` branch emits the sentinel row. -/
lemma processEntity_fail (std : List ℚ → ℚ) (currency : String) (hasBalance : Bool)
    (fr : FetchResult) (h : fr.rate = none ∨ fr.rate = some []) :
    processEntity std currency hasBalance fr = errorRow currency := by
  rcases h with h | h <;> simp [processEntity, h]

/-- C6 (the code contradicts the claim): in every degenerate case — fewer than
2 cleaned rows, and in general whenever no ordered pair of distinct entities
clears the threshold — the retained-pair list is indeed empty, but the
line-274 construction `pd.DataFrame([]).sort_values(by=...)` then raises
`KeyError` (modelled as `none`) instead of returning an empty table; the
line-279 message for the empty table is unreachable.  The last conjunct
evaluates a whole run with one valid entity and one failed fetch: the app
dies at line 274. -/
theorem c6_pairwise_step_raises :
    (∀ rows : List ScoreRow, trade_ideas rows = [] → df_trades rows = none) ∧
    (∀ rows : List ScoreRow, rows.length < 2 →
      trade_ideas rows = [] ∧ df_trades rows = none) ∧
    (∀ rows : List ScoreRow,
      (∀ a ∈ rows, ∀ b ∈ rows, a.devise ≠ b.devise → a.macroScore - b.macroScore ≤ 1.5) →
      trade_ideas rows = [] ∧ df_trades rows = none) ∧
    appTradeTable (fun _ => 0) [("AAA", true), ("BBB", true)]
      (fun nm => if nm = "AAA" then ⟨some [1], some [], none⟩ else ⟨none, none, none⟩)
      = none := by
  have hraise : ∀ rows : List ScoreRow, trade_ideas rows = [] → df_trades rows = none := by
    intro rows h
    unfold df_trades
    rw [if_pos h]
  have hlt : ∀ rows : List ScoreRow, rows.length < 2 → trade_ideas rows = [] := by
    intro rows h
    apply trade_ideas_eq_nil
    intro a ha b hb hne
    match rows, h with
    | [], _ => simp at ha
    | [x], _ =>
      rw [List.mem_singleton.mp ha, List.mem_singleton.mp hb] at hne
      exact absurd rfl hne
  refine ⟨hraise, fun rows h => ⟨hlt rows h, hraise rows (hlt rows h)⟩,
    fun rows h => ⟨trade_ideas_eq_nil rows h, hraise rows (trade_ideas_eq_nil rows h)⟩, ?_⟩
  have hrowA : processEntity (fun _ => (0:ℚ)) "AAA" true ⟨some [1], some [], none⟩
      = ⟨"AAA", 1, 0, 0, 0, 0, 0, 0⟩ := by
    norm_num [processEntity, calculate_z_score_q, cpiPart, bsPart, pctChange, macroScore,
      round2, round_eq, List.getLast!]
  have hbuild : buildRows (fun _ => 0) [("AAA", true), ("BBB", true)]
      (fun nm => if nm = "AAA" then ⟨some [1], some [], none⟩ else ⟨none, none, none⟩)
      = [⟨"AAA", 1, 0, 0, 0, 0, 0, 0⟩, errorRow "BBB"] := by
    simp only [buildRows, List.map_cons, List.map_nil, String.reduceEq, reduceIte]
    rw [hrowA, processEntity_fail _ _ _ _ (Or.inl rfl)]
  have hsort : sortRows [⟨"AAA", 1, 0, 0, 0, 0, 0, 0⟩, errorRow "BBB"]
      = [⟨"AAA", 1, 0, 0, 0, 0, 0, 0⟩, errorRow "BBB"] := by
    norm_num [sortRows, List.insertionSort, List.orderedInsert, scoreGE, errorRow]
  have hclean : df_clean [(⟨"AAA", 1, 0, 0, 0, 0, 0, 0⟩ : ScoreRow), errorRow "BBB"]
      = [⟨"AAA", 1, 0, 0, 0, 0, 0, 0⟩] := by
    norm_num [df_clean, List.filter, errorRow]
  rw [appTradeTable, get_macro_data, hbuild, hsort, hclean]
  exact hraise _ (hlt _ (by norm_num))

/-- Witness for C6 at concrete inputs: the empty row set, a singleton row set,
and a two-row set whose only cross pair has spread exactly 1.5. -/
theorem c6_pairwise_step_raises_witness :
    df_trades ([] : List ScoreRow) = none ∧
    (trade_ideas [mkRow "AAA" 9] = [] ∧ df_trades [mkRow "AAA" 9] = none) ∧
    (trade_ideas [mkRow "AAA" 2, mkRow "BBB" 0.5] = [] ∧
      df_trades [mkRow "AAA" 2, mkRow "BBB" 0.5] = none) := by
  refine ⟨c6_pairwise_step_raises.1 [] rfl,
    c6_pairwise_step_raises.2.1 [mkRow "AAA" 9] (by norm_num),
    c6_pairwise_step_raises.2.2.1 [mkRow "AAA" 2, mkRow "BBB" 0.5] ?_⟩
  intro a ha b hb hne
  rcases List.mem_cons.mp ha with rfl | ha <;> rcases List.mem_cons.mp hb with rfl | hb <;>
    simp_all [mkRow] <;> norm_num

/-! ### Claims C8, C9, C10 about the failure path and the display filter -/

/-- Sorted-descending rows bounded below by the sentinel score split into the
non-sentinel rows followed by the sentinel rows. -/
lemma sorted_sentinel_split :
    ∀ l : List ScoreRow, l.Pairwise scoreGE → (∀ r ∈ l, (-999:ℚ) ≤ r.macroScore) →
      l = (l.filter fun r => decide (r.macroScore ≠ -999))
            ++ (l.filter fun r => decide (r.macroScore = -999))
  | [], _, _ => rfl
  | a :: t, hp, hb => by
    obtain ⟨hat, hpt⟩ := List.pairwise_cons.mp hp
    by_cases ha : a.macroScore = -999
    · have hall : ∀ r ∈ t, r.macroScore = -999 := fun r hr =>
        le_antisymm ((hat r hr).trans (le_of_eq ha)) (hb r (List.mem_cons_of_mem a hr))
      have hP : ((a :: t).filter fun r => decide (r.macroScore ≠ -999)) = [] := by
        rw [List.filter_eq_nil_iff]
        intro r hr
        rcases List.mem_cons.mp hr with rfl | hr
        · simp [ha]
        · simp [hall r hr]
      have hQ : ((a :: t).filter fun r => decide (r.macroScore = -999)) = a :: t := by
        rw [List.filter_eq_self]
        intro r hr
        rcases List.mem_cons.mp hr with rfl | hr
        · simp [ha]
        · simp [hall r hr]
      rw [hP, hQ, List.nil_append]
    · have ih := sorted_sentinel_split t hpt fun r hr => hb r (List.mem_cons_of_mem a hr)
      rw [List.filter_cons_of_pos (by simp [ha]), List.filter_cons_of_neg (by simp [ha]),
        List.cons_append]
      exact congrArg (a :: ·) ih

/-- C8: a failed or empty policy-rate fetch never escapes the loop: the entity
still gets a row, all zeros with the sentinel Macro Score `-999`; that row is
part of the sorted output; and in the descending sort every sentinel row comes
after every row whose score is above the sentinel (stated via the
prefix/suffix split of the sorted list, under the premise that the sentinel is
a lower bound of all scores, which is what "a score far below any real score"
means). -/
theorem c8_sentinel_row :
    (∀ (std : List ℚ → ℚ) (currency : String) (hasBalance : Bool) (fr : FetchResult),
      fr.rate = none ∨ fr.rate = some [] →
      processEntity std currency hasBalance fr = errorRow currency) ∧
    (∀ (std : List ℚ → ℚ) (banks : List (String × Bool)) (fetch : String → FetchResult)
      (currency : String) (hasBalance : Bool), (currency, hasBalance) ∈ banks →
      (fetch currency).rate = none ∨ (fetch currency).rate = some [] →
      errorRow currency ∈ get_macro_data std banks fetch) ∧
    (∀ rows : List ScoreRow, (∀ r ∈ rows, (-999:ℚ) ≤ r.macroScore) →
      sortRows rows
        = ((sortRows rows).filter fun r => decide (r.macroScore ≠ -999))
            ++ ((sortRows rows).filter fun r => decide (r.macroScore = -999))) := by
  refine ⟨processEntity_fail, fun std banks fetch currency hasB hmem h => ?_,
    fun rows hge => ?_⟩
  · have hmemb : errorRow currency ∈ buildRows std banks fetch := by
      rw [buildRows, List.mem_map]
      exact ⟨(currency, hasB), hmem, processEntity_fail _ _ _ _ h⟩
    exact ((List.perm_insertionSort scoreGE _).mem_iff).mpr hmemb
  · exact sorted_sentinel_split (sortRows rows) (List.sorted_insertionSort scoreGE rows)
      fun r hr => hge r (((List.perm_insertionSort scoreGE rows).mem_iff).mp hr)

/-- Witness for C8: a two-entity run where the first rate fetch raises, and a
concrete sorted row list containing one sentinel row. -/
theorem c8_sentinel_row_witness :
    errorRow "AAA" ∈ get_macro_data (fun _ => 0) [("AAA", true), ("BBB", false)]
      (fun nm => if nm = "AAA" then ⟨none, none, none⟩ else ⟨some [1], some [], none⟩) ∧
    sortRows [mkRow "XXX" 1, errorRow "YYY"]
      = ((sortRows [mkRow "XXX" 1, errorRow "YYY"]).filter
            fun r => decide (r.macroScore ≠ -999))
          ++ ((sortRows [mkRow "XXX" 1, errorRow "YYY"]).filter
            fun r => decide (r.macroScore = -999)) := by
  constructor
  · refine c8_sentinel_row.2.1 (fun _ => 0) _ _ "AAA" true (by simp) ?_
    left
    simp
  · refine c8_sentinel_row.2.2 _ ?_
    intro r hr
    rcases List.mem_cons.mp hr with rfl | hr
    · norm_num [mkRow]
    · rcases List.mem_cons.mp hr with rfl | hr
      · norm_num [errorRow]
      · simp at hr

/-- C9 (amended): every numeric field of a successful row — in particular the
Macro Score — is rounded to 2 decimals when the row is built, so the pairwise
divergences are computed from the rounded composite scores, not the unrounded
ones: the stored spread of each retained pair is `round2` of the difference of the
stored (already rounded) Macro Scores. -/
theorem c9_rounded_divergence :
    (∀ (std : List ℚ → ℚ) (currency : String) (hasBalance : Bool) (fr : FetchResult)
      (rate_s cpi_s : List ℚ), fr.rate = some rate_s → rate_s ≠ [] → fr.cpi = some cpi_s →
      (processEntity std currency hasBalance fr).macroScore
        = round2 (macroScore (calculate_z_score_q std rate_s)
            (cpiPart std cpi_s).2 (bsPart std hasBalance fr.balance).2)) ∧
    (∀ (rows : List ScoreRow) (p : TradeIdea), p ∈ trade_ideas rows →
      ∃ a b, a ∈ rows ∧ b ∈ rows ∧ p.scoreSpread = round2 (a.macroScore - b.macroScore) ∧
        1.5 < a.macroScore - b.macroScore) := by
  constructor
  · intro std currency hasB fr rate_s cpi_s hr hne hc
    simp [processEntity, hr, hc, hne]
  · intro rows p hp
    rcases (mem_trade_ideas_iff rows p).mp hp with ⟨a, b, ha, hb, hne, hgt, rfl⟩
    exact ⟨a, b, ha, hb, rfl, hgt⟩

/-- Witness for C9 at concrete inputs: a one-value rate series, and the pair
built from two concrete rows with spread 4. -/
theorem c9_rounded_divergence_witness :
    (processEntity (fun _ => 0) "AAA" false ⟨some [1], some [], none⟩).macroScore
      = round2 (macroScore (calculate_z_score_q (fun _ => 0) [1])
          (cpiPart (fun _ => 0) []).2 (bsPart (fun _ => 0) false none).2) ∧
    (∃ a b, a ∈ [mkRow "AAA" 5, mkRow "BBB" 1] ∧ b ∈ [mkRow "AAA" 5, mkRow "BBB" 1] ∧
      (mkIdea (mkRow "AAA" 5) (mkRow "BBB" 1)).scoreSpread
        = round2 (a.macroScore - b.macroScore) ∧
      1.5 < a.macroScore - b.macroScore) := by
  have hp : mkIdea (mkRow "AAA" 5) (mkRow "BBB" 1)
      ∈ trade_ideas [mkRow "AAA" 5, mkRow "BBB" 1] := by
    refine (mem_trade_ideas_iff _ _).mpr ⟨mkRow "AAA" 5, mkRow "BBB" 1, by simp, by simp, ?_, ?_, rfl⟩
    · simp [mkRow]
    · norm_num [mkRow]
  exact ⟨c9_rounded_divergence.1 (fun _ => 0) "AAA" false ⟨some [1], some [], none⟩ [1] []
      rfl (by simp) rfl,
    c9_rounded_divergence.2 _ _ hp⟩

/-- C10: every displayed artefact is taken from the `-999`-filtered rows: the
cleaned table has no sentinel score, the top hawk / top dove rows are cleaned
rows, both legs of every generated pair are cleaned rows, and no failure row
ever survives the filter. -/
theorem c10_sentinel_filtered (rows : List ScoreRow) :
    (∀ r ∈ df_clean rows, r.macroScore ≠ -999) ∧
    (∀ r, bestRow rows = some r → r.macroScore ≠ -999) ∧
    (∀ r, worstRow rows = some r → r.macroScore ≠ -999) ∧
    (∀ p ∈ trade_ideas (df_clean rows), ∃ a b, a ∈ df_clean rows ∧ b ∈ df_clean rows ∧
      a.macroScore ≠ -999 ∧ b.macroScore ≠ -999 ∧ p = mkIdea a b) ∧
    (∀ currency, errorRow currency ∉ df_clean rows) := by
  have hclean : ∀ r ∈ df_clean rows, r.macroScore ≠ -999 := by
    intro r hr
    simpa using (List.mem_filter.mp hr).2
  refine ⟨hclean, fun r hr => ?_, fun r hr => ?_, fun p hp => ?_, fun currency h => ?_⟩
  · exact hclean r (List.mem_of_mem_head? (Option.mem_def.mpr hr))
  · exact hclean r (List.mem_of_getLast?_eq_some hr)
  · rcases (mem_trade_ideas_iff _ p).mp hp with ⟨a, b, ha, hb, hne, hgt, rfl⟩
    exact ⟨a, b, ha, hb, hclean a ha, hclean b hb, rfl⟩
  · exact hclean _ h rfl

/-- Witness for C10 at a concrete row set with one failed entity: the best and
worst rows and a generated pair all avoid the sentinel. -/
theorem c10_sentinel_filtered_witness :
    bestRow [mkRow "AAA" 5, mkRow "BBB" 1, errorRow "CCC"] = some (mkRow "AAA" 5) ∧
    (mkRow "AAA" 5).macroScore ≠ -999 ∧
    worstRow [mkRow "AAA" 5, mkRow "BBB" 1, errorRow "CCC"] = some (mkRow "BBB" 1) ∧
    (mkRow "BBB" 1).macroScore ≠ -999 ∧
    (∃ a b, a ∈ df_clean [mkRow "AAA" 5, mkRow "BBB" 1, errorRow "CCC"] ∧
      b ∈ df_clean [mkRow "AAA" 5, mkRow "BBB" 1, errorRow "CCC"] ∧
      a.macroScore ≠ -999 ∧ b.macroScore ≠ -999 ∧
      mkIdea (mkRow "AAA" 5) (mkRow "BBB" 1) = mkIdea a b) := by
  have hdf : df_clean [mkRow "AAA" 5, mkRow "BBB" 1, errorRow "CCC"]
      = [mkRow "AAA" 5, mkRow "BBB" 1] := by
    norm_num [df_clean, List.filter, mkRow, errorRow]
  have hbest : bestRow [mkRow "AAA" 5, mkRow "BBB" 1, errorRow "CCC"] = some (mkRow "AAA" 5) := by
    rw [bestRow, hdf]
    rfl
  have hworst : worstRow [mkRow "AAA" 5, mkRow "BBB" 1, errorRow "CCC"]
      = some (mkRow "BBB" 1) := by
    rw [worstRow, hdf]
    rfl
  have hp : mkIdea (mkRow "AAA" 5) (mkRow "BBB" 1)
      ∈ trade_ideas (df_clean [mkRow "AAA" 5, mkRow "BBB" 1, errorRow "CCC"]) := by
    rw [hdf]
    refine (mem_trade_ideas_iff _ _).mpr ⟨mkRow "AAA" 5, mkRow "BBB" 1, by simp, by simp, ?_, ?_, rfl⟩
    · simp [mkRow]
    · norm_num [mkRow]
  exact ⟨hbest, (c10_sentinel_filtered _).2.1 _ hbest, hworst,
    (c10_sentinel_filtered _).2.2.1 _ hworst,
    (c10_sentinel_filtered _).2.2.2.1 _ hp⟩

/-- Counterexample to C9 as stated: two entities whose policy-rate series have
sample mean 0 and sample variance exactly 25 (the first two conjuncts certify,
against the real-valued model of `Series.std()`, that the constant function 5
fed to the pipeline is the true sample standard deviation of both series), so
the unrounded composite scores are `2.004` and `0.496` — unrounded divergence
`1.508 > 1.5` — yet the app retains no pair: the rows store the rounded scores
`2.00` and `0.50` and the pair filter sees a divergence of exactly `1.50`,
which the strict `>` drops.  (The two stored scores, 2.0 and 0.5, and their
difference are exact in binary floating point as well, so the float run agrees
with this ℚ evaluation.)  Were the divergence computed from the unrounded
composite scores, pair (AAA, BBB) would be retained. -/
theorem c9_unrounded_divergence_counterexample :
    sstd [(-5.01 : ℝ), 10.6, -10.6, 0.19, -0.19, 0.06, -0.06, 0.01, -0.01, 0.01, -0.01, 5.01]
      = 5 ∧
    sstd [(-1.24 : ℝ), 11.66, -11.66, 0.08, -0.08, 0.02, -0.02, 0, 0, 0, 0, 1.24] = 5 ∧
    macroScore (calculate_z_score_q (fun _ => 5)
        ([-5.01, 10.6, -10.6, 0.19, -0.19, 0.06, -0.06, 0.01, -0.01, 0.01, -0.01, 5.01] :
          List ℚ)) 0 0 = 2.004 ∧
    macroScore (calculate_z_score_q (fun _ => 5)
        ([-1.24, 11.66, -11.66, 0.08, -0.08, 0.02, -0.02, 0, 0, 0, 0, 1.24] : List ℚ)) 0 0
      = 0.496 ∧
    (1.5 : ℚ) < 2.004 - 0.496 ∧
    trade_ideas (df_clean (get_macro_data (fun _ => 5) [("AAA", false), ("BBB", false)]
      (fun nm => if nm = "AAA"
        then ⟨some [-5.01, 10.6, -10.6, 0.19, -0.19, 0.06, -0.06, 0.01, -0.01, 0.01, -0.01, 5.01],
              some [], none⟩
        else ⟨some [-1.24, 11.66, -11.66, 0.08, -0.08, 0.02, -0.02, 0, 0, 0, 0, 1.24],
              some [], none⟩))) = [] := by
  have hvarA : svar [(-5.01 : ℝ), 10.6, -10.6, 0.19, -0.19, 0.06, -0.06, 0.01, -0.01, 0.01,
      -0.01, 5.01] = 25 := by
    norm_num [svar, smean, List.sum_cons, List.sum_nil, List.map_cons, List.map_nil]
  have hvarB : svar [(-1.24 : ℝ), 11.66, -11.66, 0.08, -0.08, 0.02, -0.02, 0, 0, 0, 0, 1.24]
      = 25 := by
    norm_num [svar, smean, List.sum_cons, List.sum_nil, List.map_cons, List.map_nil]
  have hsA : sstd [(-5.01 : ℝ), 10.6, -10.6, 0.19, -0.19, 0.06, -0.06, 0.01, -0.01, 0.01,
      -0.01, 5.01] = 5 := by
    rw [sstd, hvarA, show (25 : ℝ) = 5 ^ 2 by norm_num, Real.sqrt_sq (by norm_num)]
  have hsB : sstd [(-1.24 : ℝ), 11.66, -11.66, 0.08, -0.08, 0.02, -0.02, 0, 0, 0, 0, 1.24]
      = 5 := by
    rw [sstd, hvarB, show (25 : ℝ) = 5 ^ 2 by norm_num, Real.sqrt_sq (by norm_num)]
  have hzA : calculate_z_score_q (fun _ => 5)
      ([-5.01, 10.6, -10.6, 0.19, -0.19, 0.06, -0.06, 0.01, -0.01, 0.01, -0.01, 5.01] :
        List ℚ) = 1.002 := by
    norm_num [calculate_z_score_q, List.getLast!]
  have hzB : calculate_z_score_q (fun _ => 5)
      ([-1.24, 11.66, -11.66, 0.08, -0.08, 0.02, -0.02, 0, 0, 0, 0, 1.24] : List ℚ)
      = 0.248 := by
    norm_num [calculate_z_score_q, List.getLast!]
  have hA : processEntity (fun _ => 5) "AAA" false
      ⟨some [-5.01, 10.6, -10.6, 0.19, -0.19, 0.06, -0.06, 0.01, -0.01, 0.01, -0.01, 5.01],
       some [], none⟩
      = ⟨"AAA", 501/100, 1, 0, 0, 0, 0, 2⟩ := by
    simp only [processEntity]
    norm_num [calculate_z_score_q, cpiPart, bsPart, pctChange, macroScore, round2, round_eq,
      List.getLast!]
    intro h
    simp at h
  have hB : processEntity (fun _ => 5) "BBB" false
      ⟨some [-1.24, 11.66, -11.66, 0.08, -0.08, 0.02, -0.02, 0, 0, 0, 0, 1.24], some [], none⟩
      = ⟨"BBB", 31/25, 1/4, 0, 0, 0, 0, 1/2⟩ := by
    simp only [processEntity]
    norm_num [calculate_z_score_q, cpiPart, bsPart, pctChange, macroScore, round2, round_eq,
      List.getLast!]
    intro h
    simp at h
  have hbuild : buildRows (fun _ => 5) [("AAA", false), ("BBB", false)]
      (fun nm => if nm = "AAA"
        then ⟨some [-5.01, 10.6, -10.6, 0.19, -0.19, 0.06, -0.06, 0.01, -0.01, 0.01, -0.01, 5.01],
              some [], none⟩
        else ⟨some [-1.24, 11.66, -11.66, 0.08, -0.08, 0.02, -0.02, 0, 0, 0, 0, 1.24],
              some [], none⟩)
      = [⟨"AAA", 501/100, 1, 0, 0, 0, 0, 2⟩, ⟨"BBB", 31/25, 1/4, 0, 0, 0, 0, 1/2⟩] := by
    simp only [buildRows, List.map_cons, List.map_nil, String.reduceEq, reduceIte]
    rw [hA, hB]
  have hsort : sortRows [⟨"AAA", 501/100, 1, 0, 0, 0, 0, 2⟩, ⟨"BBB", 31/25, 1/4, 0, 0, 0, 0, 1/2⟩]
      = [⟨"AAA", 501/100, 1, 0, 0, 0, 0, 2⟩, ⟨"BBB", 31/25, 1/4, 0, 0, 0, 0, 1/2⟩] := by
    norm_num [sortRows, List.insertionSort, List.orderedInsert, scoreGE]
  have hclean : df_clean [(⟨"AAA", 501/100, 1, 0, 0, 0, 0, 2⟩ : ScoreRow),
      ⟨"BBB", 31/25, 1/4, 0, 0, 0, 0, 1/2⟩]
      = [⟨"AAA", 501/100, 1, 0, 0, 0, 0, 2⟩, ⟨"BBB", 31/25, 1/4, 0, 0, 0, 0, 1/2⟩] := by
    norm_num [df_clean, List.filter]
  have hideas : trade_ideas [(⟨"AAA", 501/100, 1, 0, 0, 0, 0, 2⟩ : ScoreRow),
      ⟨"BBB", 31/25, 1/4, 0, 0, 0, 0, 1/2⟩] = [] := by
    norm_num [trade_ideas, List.flatMap, List.filterMap]
  refine ⟨hsA, hsB, by rw [hzA]; norm_num [macroScore], by rw [hzB]; norm_num [macroScore],
    by norm_num, ?_⟩
  rw [get_macro_data, hbuild, hsort, hclean, hideas]
